import Mathlib

/-!
# Verification of py-cashier (key derivation and caching decorator)

Shallow embedding of `src/py_cashier/key.py` and `src/py_cashier/main.py`.

Python values that can appear as cached-call arguments are modelled by
`PyVal` (integers and strings suffice for the properties at hand).  The
`ttlru_map.TTLMap` store is an external dependency of the repository and
its code is not in the sources; it is modelled from the spec (section 4.3,
Expiring Store) where noted.
-/

set_option autoImplicit false

namespace PyCashier

/-- A Python value, as far as key serialization is concerned. -/
inductive PyVal where
  | pInt (n : Int)
  | pStr (s : String)
  deriving DecidableEq, Repr

/-- The single-quote character, written via its code point. -/
def squote : String := String.singleton (Char.ofNat 39)

/-- Python `repr` on the modelled values: integers print as decimal
numerals, strings are wrapped in single quotes. -/
def pyRepr : PyVal → String
  | .pInt n => toString n
  | .pStr s => squote ++ s ++ squote

/-- Python `str` on the modelled values (`StrKeySerializer.to_str`). -/
def pyStr : PyVal → String
  | .pInt n => toString n
  | .pStr s => s

/-- `key.py`, `ReprKeySerializer.to_str`: `return repr(value)`. -/
def ReprKeySerializer (value : PyVal) : String := pyRepr value

/-- `key.py`, `StrKeySerializer.to_str`: `return str(value)`. -/
def StrKeySerializer (value : PyVal) : String := pyStr value

/-- The reflective data `DefaultKeyBuilder` extracts from a callable:
`inspect.getfile(func)` and `inspect.getfullargspec(func)` (its `.args`
and `.kwonlyargs` lists of parameter names). -/
structure PyFunc where
  file : String
  fargs : List String
  kwonlyargs : List String
  deriving DecidableEq, Repr

/-- `main.py`, `DefaultKeyBuilder.get_args`.  Mirrors:
an explicit empty `include_args` raises `ValueError`; `arg_names` is the
set of positional and keyword-only parameter names; `include_args or
arg_names` defaults the included set; a name outside `arg_names` raises
`ValueError`; otherwise the per-positional-parameter `(name, included)`
pairs and the included set are returned.  `ValueError` is modelled as
`Except.error`. -/
def get_args (include_args : Option (List String)) (func : PyFunc) :
    Except String (List (String × Bool) × List String) :=
  if include_args = some [] then
    Except.error "include_args cannot be an empty set"
  else
    let arg_names := func.fargs ++ func.kwonlyargs
    let include_args_set := include_args.getD arg_names
    if include_args_set.all (fun a => arg_names.contains a) then
      Except.ok (func.fargs.map (fun arg => (arg, include_args_set.contains arg)), include_args_set)
    else
      Except.error "include_args contains unknown arguments"

/-- The state of a constructed `DefaultKeyBuilder`: the serializer, the
namespace string (source field `_prefix`), the `(name, included)` pairs
for positional parameters (`_included_args`) and the included set
(`_included_kwargs`). -/
structure DefaultKeyBuilder where
  keySerializer : PyVal → String
  pfx : String
  includedArgs : List (String × Bool)
  includedKwargs : List String

/-- `main.py`, `DefaultKeyBuilder.__init__`: stores the serializer, sets
the `_prefix` field to the f-string of the caller-supplied prefix and
`inspect.getfile(func)`, and runs `get_args`; a `ValueError` from
`get_args` propagates out of the constructor. -/
def DefaultKeyBuilder.mk0 (userPfx : String) (func : PyFunc)
    (cache_by_args : Option (List String)) (key_serializer : PyVal → String) :
    Except String DefaultKeyBuilder :=
  match get_args cache_by_args func with
  | .error e => .error e
  | .ok (incArgs, incKwargs) =>
      .ok ⟨key_serializer, userPfx ++ "/" ++ func.file, incArgs, incKwargs⟩

/-- The positional fragments of `build_key`:
`(to_str(arg) for i, arg in enumerate(args) if self._included_args[i][1])`.
Each positional argument indexes `_included_args` at its position; in
Python an argument beyond the end of `_included_args` raises `IndexError`,
modelled as `none`.  Walking the two lists in lockstep is index-for-index
the same as `enumerate`. -/
def posFragments (ser : PyVal → String) :
    List (String × Bool) → List PyVal → Option (List String)
  | _, [] => some []
  | [], _ :: _ => none
  | (_, b) :: incRest, a :: argsRest =>
      (posFragments ser incRest argsRest).map
        (fun l => if b then ser a :: l else l)

/-- The keyword fragments of `build_key`:
`(to_str(kwarg) for kwarg, value in kwargs.items() if kwarg in self._included_kwargs)`.
Note the source serializes `kwarg` — the parameter *name*, a Python
string — and leaves `value` unused. -/
def kwFragments (ser : PyVal → String) (includedKw : List String)
    (kwargs : List (String × PyVal)) : List String :=
  kwargs.filterMap
    (fun p => if includedKw.contains p.1 then some (ser (PyVal.pStr p.1)) else none)

/-- `main.py`, `DefaultKeyBuilder.build_key`: joins the positional and
keyword fragments with `/` and prepends `_prefix` plus `/`.  The
`IndexError` that positional indexing can raise surfaces as `none`. -/
def build_key (kb : DefaultKeyBuilder) (args : List PyVal)
    (kwargs : List (String × PyVal)) : Option String :=
  (posFragments kb.keySerializer kb.includedArgs args).map
    (fun pos =>
      let key := String.intercalate "/" (pos ++ kwFragments kb.keySerializer kb.includedKwargs kwargs)
      kb.pfx ++ "/" ++ key)

/-- Modelled from the spec: the `TTLMap` of the external `ttlru_map`
dependency, whose code is not in the sources.  Spec section 4.3 (Expiring
Store): a mapping from cache key to `(value, expiry time)` with a single
TTL duration fixed at store construction.  Time is in abstract ticks. -/
structure TTLMap (V : Type) where
  ttl : Nat
  entries : List (String × V × Nat)

/-- The raw association-list lookup of an entry (value and expiry). -/
def lookupEntry {V : Type} (st : TTLMap V) (key : String) : Option (V × Nat) :=
  (st.entries.find? (fun e => e.1 = key)).map Prod.snd

/-- Modelled from the spec: `TTLMap` construction — an empty store with
the given TTL. -/
def ttlEmpty (V : Type) (ttl : Nat) : TTLMap V := ⟨ttl, []⟩

/-- Modelled from the spec: `get(key)` on the Expiring Store — `Absent`
(here `none`) if no entry exists or the entry's expiry has passed, with
an expired entry removed on observation (lazy eviction); otherwise the
stored value, store untouched.  The expiry at time `exp` has passed at
time `now` when `exp < now`. -/
def ttlGet {V : Type} (st : TTLMap V) (key : String) (now : Nat) :
    Option V × TTLMap V :=
  match lookupEntry st key with
  | none => (none, st)
  | some (v, exp) =>
      if exp < now then
        (none, ⟨st.ttl, st.entries.filter (fun e => e.1 ≠ key)⟩)
      else
        (some v, st)

/-- Modelled from the spec: `put(key, value)` on the Expiring Store —
inserts or overwrites the entry, setting its expiry to `now + TTL` with
the store's single TTL. -/
def ttlPut {V : Type} (st : TTLMap V) (key : String) (v : V) (now : Nat) :
    TTLMap V :=
  ⟨st.ttl, (key, v, now + st.ttl) :: st.entries.filter (fun e => e.1 ≠ key)⟩

/-- `main.py`, the inner `wrapper` of `_wrapper`, one synchronous call:
derive the key, try `mapa[key]` and return the hit, otherwise invoke the
underlying callable, store a successful result, and return it; an
exception from the callable (modelled by `Except.error`) propagates
before the store assignment runs.  The returned `Nat` counts how many
times the underlying callable was invoked during this call (0 or 1). -/
def wrapperCall {A V : Type} (keyOf : A → String) (func : A → Except String V)
    (st : TTLMap V) (now : Nat) (a : A) :
    Except String V × TTLMap V × Nat :=
  let key := keyOf a
  match ttlGet st key now with
  | (some v, st1) => (.ok v, st1, 0)
  | (none, st1) =>
      match func a with
      | .ok r => (.ok r, ttlPut st1 key r now, 1)
      | .error e => (.error e, st1, 1)

/-- `main.py`, `_async_wrapper`: the wrapped coroutine just awaits the
underlying callable — no key, no store.  The `Nat` counts invocations of
the underlying callable during this call (always 1). -/
def asyncWrapperCall {A V : Type} (func : A → V) (a : A) : V × Nat :=
  (func a, 1)

/-- `main.py`, `cache` applied to a coroutine function: `_decorator`
returns `_async_wrapper(func_)`, discarding the `key_builder` argument
(`KB` stands for any key-builder type). -/
def cacheAsync {A V KB : Type} (key_builder : Option KB) (func : A → V) :
    A → V × Nat :=
  fun a => asyncWrapperCall func a

/-- Where a synchronous caller of `wrapper` stands: before the store
lookup, after a miss (about to invoke the callable), or holding a
result. -/
inductive Phase (V : Type) where
  | ready
  | missed
  | finished (v : V)
  deriving DecidableEq, Repr

/-- Two concurrent callers of the same wrapped callable sharing its
`mapa` store: each caller's phase, and the running count of invocations
of the underlying callable. -/
structure TwoCallers (V : Type) where
  st : TTLMap V
  phaseA : Phase V
  phaseB : Phase V
  calls : Nat

/-- One atomic step of one caller executing the body of `wrapper` on a
fixed argument at a fixed time: the store lookup (`mapa[key]`) is one
step; invoking the callable and assigning `mapa[key] = res` is the next.
This is the finest interleaving the unsynchronized Python body admits:
nothing stops a second thread from running between the lookup and the
assignment (the source comment reads `Todo multithreading dog piling`). -/
def stepPhase {A V : Type} (keyOf : A → String) (func : A → V) (a : A)
    (now : Nat) (st : TTLMap V) (ph : Phase V) :
    TTLMap V × Phase V × Nat :=
  match ph with
  | .ready =>
      match ttlGet st (keyOf a) now with
      | (some v, st1) => (st1, .finished v, 0)
      | (none, st1) => (st1, .missed, 0)
  | .missed =>
      let r := func a
      (ttlPut st (keyOf a) r now, .finished r, 1)
  | .finished v => (st, .finished v, 0)

/-- Advance one of the two callers (`false` = A, `true` = B) by one
atomic step. -/
def stepSys {A V : Type} (keyOf : A → String) (func : A → V) (a : A)
    (now : Nat) (s : TwoCallers V) (tid : Bool) : TwoCallers V :=
  if tid then
    let (st1, ph1, c) := stepPhase keyOf func a now s.st s.phaseB
    ⟨st1, s.phaseA, ph1, s.calls + c⟩
  else
    let (st1, ph1, c) := stepPhase keyOf func a now s.st s.phaseA
    ⟨st1, ph1, s.phaseB, s.calls + c⟩

/-- Run an interleaving schedule over the two callers. -/
def runSched {A V : Type} (keyOf : A → String) (func : A → V) (a : A)
    (now : Nat) (s : TwoCallers V) : List Bool → TwoCallers V
  | [] => s
  | t :: rest => runSched keyOf func a now (stepSys keyOf func a now s t) rest

/-- Whether an `Except` result is an error (a raised `ValueError`). -/
def isErr {α : Type} : Except String α → Bool
  | .error _ => true
  | .ok _ => false

/-- The callable of the repository's own test: `def func(a, b, c=1)`
defined in a file; three positional parameters, no keyword-only ones. -/
def exFunc : PyFunc := ⟨"main.py", ["a", "b", "c"], []⟩

/-- A different callable defined in the same source file as `exFunc`. -/
def exFuncSame : PyFunc := ⟨"main.py", ["x"], []⟩

/-- A callable defined in a different source file. -/
def exFuncOther : PyFunc := ⟨"other.py", ["a", "b", "c"], []⟩

/-- The `DefaultKeyBuilder` the decorator constructs for `exFunc` with no
explicit include-list (the fallback branch is unreachable; the claim
theorems record that construction really returns this builder). -/
def exKB : DefaultKeyBuilder :=
  match DefaultKeyBuilder.mk0 "" exFunc none ReprKeySerializer with
  | .ok kb => kb
  | .error _ => ⟨ReprKeySerializer, "", [], []⟩

/-- The `DefaultKeyBuilder` constructed for `exFuncSame`. -/
def exKBSame : DefaultKeyBuilder :=
  match DefaultKeyBuilder.mk0 "" exFuncSame none ReprKeySerializer with
  | .ok kb => kb
  | .error _ => ⟨ReprKeySerializer, "", [], []⟩

/-- The `DefaultKeyBuilder` constructed for `exFuncOther`. -/
def exKBOther : DefaultKeyBuilder :=
  match DefaultKeyBuilder.mk0 "" exFuncOther none ReprKeySerializer with
  | .ok kb => kb
  | .error _ => ⟨ReprKeySerializer, "", [], []⟩

/-! ## Helper lemmas -/

/-- `get_args` with no explicit include-list succeeds and includes every
declared parameter. -/
theorem get_args_none (f : PyFunc) :
    get_args none f = Except.ok (f.fargs.map (fun a => (a, true)), f.fargs ++ f.kwonlyargs) := by
  simp [get_args]
  have hcond : (∀ x ∈ f.fargs, x ∈ f.fargs ∨ x ∈ f.kwonlyargs) ∧
      ∀ x ∈ f.kwonlyargs, x ∈ f.fargs ∨ x ∈ f.kwonlyargs :=
    ⟨fun x hx => Or.inl hx, fun x hx => Or.inr hx⟩
  rw [if_pos hcond]
  refine congrArg Except.ok (congrArg (fun x => (x, f.fargs ++ f.kwonlyargs)) ?_)
  apply List.map_congr_left
  intro a ha
  simp [ha]

/-- `get_args` errors exactly when the explicit include-list is empty or
holds a name that is not a declared parameter. -/
theorem get_args_error_iff (inc : Option (List String)) (f : PyFunc) :
    isErr (get_args inc f) = true ↔
      inc = some [] ∨ ∃ l, inc = some l ∧ ∃ a ∈ l, a ∉ f.fargs ++ f.kwonlyargs := by
  match inc with
  | none => simp [get_args_none, isErr]
  | some [] => simp [get_args, isErr]
  | some (x :: xs) =>
    simp only [get_args]
    split_ifs with h1 h2 <;> simp_all [isErr]
    · exact ⟨fun hx => h2.1.resolve_left hx, fun a ha hx => (h2.2 a ha).resolve_left hx⟩
    · by_cases hx : x ∈ f.fargs ∨ x ∈ f.kwonlyargs
      · exact Or.inr (h2 hx)
      · exact Or.inl ⟨fun h => hx (Or.inl h), fun h => hx (Or.inr h)⟩

/-- The builder constructor errors exactly when `get_args` does. -/
theorem isErr_mk0 (p : String) (f : PyFunc) (inc : Option (List String))
    (ser : PyVal → String) :
    isErr (DefaultKeyBuilder.mk0 p f inc ser) = isErr (get_args inc f) := by
  unfold DefaultKeyBuilder.mk0
  cases get_args inc f with
  | error e => simp [isErr]
  | ok pr => cases pr; simp [isErr]

/-- A successful `get_args` returns one `(name, included)` pair per
declared positional parameter. -/
theorem get_args_ok_shape (inc : Option (List String)) (f : PyFunc)
    (pr : List (String × Bool) × List String) (h : get_args inc f = .ok pr) :
    pr.1.length = f.fargs.length := by
  simp only [get_args] at h
  split_ifs at h <;> simp at h
  rw [← h]
  simp

/-- A successfully constructed builder records the caller prefix joined
with the source file, and one inclusion flag per positional parameter. -/
theorem mk0_ok_fields (p : String) (f : PyFunc) (inc : Option (List String))
    (ser : PyVal → String) (kb : DefaultKeyBuilder)
    (h : DefaultKeyBuilder.mk0 p f inc ser = .ok kb) :
    kb.pfx = p ++ "/" ++ f.file ∧ kb.includedArgs.length = f.fargs.length := by
  unfold DefaultKeyBuilder.mk0 at h
  cases hga : get_args inc f with
  | error e => rw [hga] at h; exact absurd h (by simp)
  | ok pr =>
      rw [hga] at h
      cases pr with
      | mk ia ik =>
          injection h with h
          subst h
          exact ⟨rfl, get_args_ok_shape inc f (ia, ik) hga⟩

/-- An entry freshly written by `put` is found with expiry `now + TTL`. -/
theorem lookupEntry_ttlPut_same {V : Type} (st : TTLMap V) (k : String)
    (v : V) (now : Nat) :
    lookupEntry (ttlPut st k v now) k = some (v, now + st.ttl) := by
  simp [lookupEntry, ttlPut]

/-- Positional fragment assembly succeeds whenever there are no more
positional arguments than `(name, included)` pairs. -/
theorem posFragments_isSome (ser : PyVal → String) :
    ∀ (inc : List (String × Bool)) (args : List PyVal),
      args.length ≤ inc.length → (posFragments ser inc args).isSome = true
  | [], [], _ => rfl
  | _ :: _, [], _ => rfl
  | [], _ :: _, h => by simp at h
  | _ :: incRest, _ :: argsRest, h => by
      simp only [posFragments, Option.isSome_map']
      exact posFragments_isSome ser incRest argsRest (Nat.succ_le_succ_iff.mp h)

/-! ## Claim theorems -/

/-- C1: the claim says two concurrent callers that both miss on the same
key invoke the underlying callable exactly once (single-flight).  The
`wrapper` body has no coordination between the `mapa[key]` lookup and the
`mapa[key] = res` assignment, so the interleaving lookup-A, lookup-B,
compute-A, compute-B makes both callers miss and both invoke the
callable: the invocation count is 2, not 1 (both callers do end up with
the same result here, but exactly-once fails). -/
theorem c1_dog_piling_two_invocations :
    (runSched (fun _ : Nat => "k") (fun _ : Nat => 42) 0 0
        ⟨ttlEmpty Nat 60, Phase.ready, Phase.ready, 0⟩
        [false, true, false, true]).calls = 2 ∧
    (runSched (fun _ : Nat => "k") (fun _ : Nat => 42) 0 0
        ⟨ttlEmpty Nat 60, Phase.ready, Phase.ready, 0⟩
        [false, true, false, true]).phaseA = Phase.finished 42 ∧
    (runSched (fun _ : Nat => "k") (fun _ : Nat => 42) 0 0
        ⟨ttlEmpty Nat 60, Phase.ready, Phase.ready, 0⟩
        [false, true, false, true]).phaseB = Phase.finished 42 ∧
    2 ≠ 1 := by
  refine ⟨rfl, rfl, rfl, by decide⟩

/-- C2 (counterexample): the claim covers asynchronous callables too, but
`cache` wraps a coroutine function with `_async_wrapper`, which caches
nothing — two immediate identical calls invoke the underlying callable
twice, not at most once. -/
theorem c2_async_counterexample :
    (cacheAsync (none : Option DefaultKeyBuilder) (fun n : Nat => n + 1) 0).2 +
      (cacheAsync (none : Option DefaultKeyBuilder) (fun n : Nat => n + 1) 0).2 = 2 ∧
    ¬(2 ≤ 1) := by
  refine ⟨rfl, by decide⟩

/-- C2 (amended): for a synchronous callable, when the key is absent and
the computation succeeds, two immediate identical calls invoke the
callable exactly once in total and the second call returns the stored
result. -/
theorem c2_sync_second_call_cached {A V : Type} (keyOf : A → String)
    (func : A → Except String V) (st : TTLMap V) (now : Nat) (a : A) (v : V)
    (h1 : lookupEntry st (keyOf a) = none) (h2 : func a = .ok v) :
    (wrapperCall keyOf func st now a).2.2 +
      (wrapperCall keyOf func (wrapperCall keyOf func st now a).2.1 now a).2.2 = 1 ∧
    (wrapperCall keyOf func (wrapperCall keyOf func st now a).2.1 now a).1 = .ok v ∧
    (wrapperCall keyOf func st now a).1 = .ok v := by
  have hfirst : wrapperCall keyOf func st now a = (.ok v, ttlPut st (keyOf a) v now, 1) := by
    simp [wrapperCall, ttlGet, h1, h2]
  rw [hfirst]
  simp [wrapperCall, ttlGet, lookupEntry_ttlPut_same]

/-- C2 (witness): a concrete instance of the amended claim. -/
theorem c2_sync_witness :
    (wrapperCall (fun _ : Nat => "k") (fun _ : Nat => Except.ok (7 : Nat))
        (ttlEmpty Nat 60) 0 0).2.2 +
      (wrapperCall (fun _ : Nat => "k") (fun _ : Nat => Except.ok (7 : Nat))
        (wrapperCall (fun _ : Nat => "k") (fun _ : Nat => Except.ok (7 : Nat))
          (ttlEmpty Nat 60) 0 0).2.1 0 0).2.2 = 1 ∧
    (wrapperCall (fun _ : Nat => "k") (fun _ : Nat => Except.ok (7 : Nat))
        (wrapperCall (fun _ : Nat => "k") (fun _ : Nat => Except.ok (7 : Nat))
          (ttlEmpty Nat 60) 0 0).2.1 0 0).1 = .ok 7 ∧
    (wrapperCall (fun _ : Nat => "k") (fun _ : Nat => Except.ok (7 : Nat))
        (ttlEmpty Nat 60) 0 0).1 = .ok 7 :=
  c2_sync_second_call_cached (fun _ : Nat => "k") (fun _ : Nat => Except.ok (7 : Nat))
    (ttlEmpty Nat 60) 0 0 7 rfl rfl

/-- C3: the claim says `build_key` appends the serialization of the
keyword argument's value.  The source serializes the keyword *name*
instead (`to_str(kwarg)` with `value` unused): for the test callable with
all parameters included, the call with keyword argument `b=2` produces
the fragment `repr("b")`, the same key as `b=3`, and not the fragment
`repr(2)` the claim requires. -/
theorem c3_kwarg_name_serialized :
    DefaultKeyBuilder.mk0 "" exFunc none ReprKeySerializer = Except.ok exKB ∧
    build_key exKB [] [("b", .pInt 2)] = some ("/main.py/" ++ squote ++ "b" ++ squote) ∧
    build_key exKB [] [("b", .pInt 2)] = build_key exKB [] [("b", .pInt 3)] ∧
    build_key exKB [] [("b", .pInt 2)] ≠ some ("/main.py/" ++ ReprKeySerializer (.pInt 2)) := by
  refine ⟨rfl, by decide, rfl, by decide⟩

/-- C4: the claim says differing included-argument values produce
different cache keys.  Because `build_key` serializes keyword names
rather than values, the calls `(1, b=2)` and `(1, b=3)` — which differ in
the included argument `b` — produce the *same* key. -/
theorem c4_differing_values_same_key :
    PyVal.pInt 2 ≠ PyVal.pInt 3 ∧
    build_key exKB [.pInt 1] [("b", .pInt 2)] = build_key exKB [.pInt 1] [("b", .pInt 3)] ∧
    (build_key exKB [.pInt 1] [("b", .pInt 2)]).isSome = true := by
  refine ⟨by decide, rfl, rfl⟩

/-- C5 (counterexample): the claim says the namespace prefix is unique
per wrapped-callable instance.  The prefix is the caller prefix joined
with `inspect.getfile(func)`, so two distinct callables defined in the
same source file receive the same prefix. -/
theorem c5_same_file_same_prefix :
    exFunc ≠ exFuncSame ∧
    DefaultKeyBuilder.mk0 "" exFunc none ReprKeySerializer = Except.ok exKB ∧
    DefaultKeyBuilder.mk0 "" exFuncSame none ReprKeySerializer = Except.ok exKBSame ∧
    exKB.pfx = exKBSame.pfx := by
  refine ⟨by decide, rfl, rfl, rfl⟩

/-- C5 (amended): the prefix is stable (fixed at construction from the
caller prefix and the callable's source file), and under the same caller
prefix two callables defined in distinct source files get distinct
prefixes; callables sharing a file share a prefix. -/
theorem c5_distinct_files_distinct_prefixes (p : String) (f1 f2 : PyFunc)
    (inc1 inc2 : Option (List String)) (ser1 ser2 : PyVal → String)
    (kb1 kb2 : DefaultKeyBuilder)
    (h1 : DefaultKeyBuilder.mk0 p f1 inc1 ser1 = .ok kb1)
    (h2 : DefaultKeyBuilder.mk0 p f2 inc2 ser2 = .ok kb2)
    (hf : f1.file ≠ f2.file) : kb1.pfx ≠ kb2.pfx := by
  rw [(mk0_ok_fields p f1 inc1 ser1 kb1 h1).1, (mk0_ok_fields p f2 inc2 ser2 kb2 h2).1]
  intro hcontra
  apply hf
  have hd := congrArg String.data hcontra
  simp [String.data_append] at hd
  exact String.ext hd

/-- C5 (witness): a concrete instance of the amended claim. -/
theorem c5_distinct_files_witness : exKB.pfx ≠ exKBOther.pfx :=
  c5_distinct_files_distinct_prefixes "" exFunc exFuncOther none none
    ReprKeySerializer ReprKeySerializer exKB exKBOther rfl rfl (by decide)

/-- C6: constructing a `DefaultKeyBuilder` fails (a `ValueError`, the
spec's `ConfigurationError`, raised synchronously inside the constructor)
if and only if the explicit include-list is provided but empty, or names
a parameter the callable does not declare; with no explicit list,
construction succeeds and every declared parameter is included. -/
theorem c6_wrap_time_validation (p : String) (f : PyFunc)
    (inc : Option (List String)) (ser : PyVal → String) :
    (isErr (DefaultKeyBuilder.mk0 p f inc ser) = true ↔
      inc = some [] ∨ ∃ l, inc = some l ∧ ∃ a ∈ l, a ∉ f.fargs ++ f.kwonlyargs) ∧
    DefaultKeyBuilder.mk0 p f none ser =
      Except.ok ⟨ser, p ++ "/" ++ f.file, f.fargs.map (fun a => (a, true)),
        f.fargs ++ f.kwonlyargs⟩ := by
  constructor
  · rw [isErr_mk0]
    exact get_args_error_iff inc f
  · unfold DefaultKeyBuilder.mk0
    rw [get_args_none]

/-- C7: when the key is absent and the computation fails, the error
propagates to the caller, the store is unchanged, the callable was
invoked, and a retry at any time behaves identically — in particular it
re-invokes the callable. -/
theorem c7_error_not_cached {A V : Type} (keyOf : A → String)
    (func : A → Except String V) (st : TTLMap V) (a : A) (e : String)
    (h1 : lookupEntry st (keyOf a) = none) (h2 : func a = .error e) :
    ∀ now, wrapperCall keyOf func st now a = (.error e, st, 1) := by
  intro now
  simp [wrapperCall, ttlGet, h1, h2]

/-- C7 (witness): a concrete instance. -/
theorem c7_error_witness :
    wrapperCall (fun _ : Nat => "k")
      (fun _ : Nat => (Except.error "boom" : Except String Nat))
      (ttlEmpty Nat 60) 5 0 = (.error "boom", ttlEmpty Nat 60, 1) :=
  c7_error_not_cached (fun _ : Nat => "k")
    (fun _ : Nat => (Except.error "boom" : Except String Nat))
    (ttlEmpty Nat 60) 0 "boom" rfl rfl 5

/-- C8: a successful computation is stored with expiry `now + TTL` — the
store's single TTL, applied uniformly by every `put` — and once the TTL
has elapsed a call with the same key misses and invokes the underlying
callable again. -/
theorem c8_ttl_expiry_reinvokes {A V : Type} (keyOf : A → String)
    (func : A → Except String V) (st : TTLMap V) (now1 now2 : Nat) (a : A) (v : V)
    (h1 : lookupEntry st (keyOf a) = none) (h2 : func a = .ok v)
    (h3 : now1 + st.ttl < now2) :
    wrapperCall keyOf func st now1 a = (.ok v, ttlPut st (keyOf a) v now1, 1) ∧
    lookupEntry (ttlPut st (keyOf a) v now1) (keyOf a) = some (v, now1 + st.ttl) ∧
    (wrapperCall keyOf func (ttlPut st (keyOf a) v now1) now2 a).2.2 = 1 ∧
    ∀ (st2 : TTLMap V) (k : String) (w : V) (n : Nat),
      lookupEntry (ttlPut st2 k w n) k = some (w, n + st2.ttl) := by
  refine ⟨by simp [wrapperCall, ttlGet, h1, h2], lookupEntry_ttlPut_same st _ v now1, ?_,
    fun st2 k w n => lookupEntry_ttlPut_same st2 k w n⟩
  have hl := lookupEntry_ttlPut_same st (keyOf a) v now1
  simp [wrapperCall, ttlGet, hl, h2, h3]

/-- C8 (witness): TTL 60 ticks; stored at tick 0, a call at tick 61
misses and re-invokes. -/
theorem c8_ttl_witness :
    wrapperCall (fun _ : Nat => "k") (fun _ : Nat => Except.ok (7 : Nat))
      (ttlEmpty Nat 60) 0 0 = (.ok 7, ttlPut (ttlEmpty Nat 60) "k" 7 0, 1) ∧
    lookupEntry (ttlPut (ttlEmpty Nat 60) "k" 7 0) "k" = some (7, 0 + 60) ∧
    (wrapperCall (fun _ : Nat => "k") (fun _ : Nat => Except.ok (7 : Nat))
      (ttlPut (ttlEmpty Nat 60) "k" 7 0) 61 0).2.2 = 1 ∧
    ∀ (st2 : TTLMap Nat) (k : String) (w : Nat) (n : Nat),
      lookupEntry (ttlPut st2 k w n) k = some (w, n + st2.ttl) :=
  c8_ttl_expiry_reinvokes (fun _ : Nat => "k") (fun _ : Nat => Except.ok (7 : Nat))
    (ttlEmpty Nat 60) 0 61 0 7 rfl rfl (by decide)

/-- C9: `build_key` indexes `_included_args` at each positional
argument's position.  Whenever a builder constructed by the decorator
receives at most as many positional arguments as the callable declares
positional parameters, the indexing is in bounds and `build_key` returns
a key; the concrete call with four positional arguments against the
three-parameter `exFunc` overflows and fails (Python `IndexError`,
modelled as `none`). -/
theorem c9_positional_index_safety :
    (∀ (p : String) (f : PyFunc) (inc : Option (List String))
        (ser : PyVal → String) (kb : DefaultKeyBuilder),
      DefaultKeyBuilder.mk0 p f inc ser = .ok kb →
      ∀ (args : List PyVal) (kwargs : List (String × PyVal)),
        args.length ≤ f.fargs.length → (build_key kb args kwargs).isSome = true) ∧
    build_key exKB [.pInt 1, .pInt 2, .pInt 3, .pInt 4] [] = none := by
  constructor
  · intro p f inc ser kb h args kwargs hlen
    have hflds := mk0_ok_fields p f inc ser kb h
    simp only [build_key, Option.isSome_map']
    exact posFragments_isSome kb.keySerializer kb.includedArgs args (hflds.2 ▸ hlen)
  · rfl

/-- C9 (witness): a concrete in-bounds call on the constructed builder
succeeds. -/
theorem c9_in_bounds_witness : (build_key exKB [.pInt 1] []).isSome = true :=
  c9_positional_index_safety.1 "" exFunc none ReprKeySerializer exKB rfl
    [.pInt 1] [] (by decide)

/-- C10: `cache` wraps a coroutine function with `_async_wrapper`, which
just awaits the underlying callable: the result equals `F`'s result on
every argument, no store exists on that path, and the `key_builder`
argument has no effect on the produced callable. -/
theorem c10_async_passthrough {A V KB : Type} (kb1 kb2 : Option KB)
    (f : A → V) (a : A) :
    (cacheAsync kb1 f a).1 = f a ∧ cacheAsync kb1 f = cacheAsync kb2 f :=
  ⟨rfl, rfl⟩

end PyCashier
